import Mathlib

/-!
Verification of lsst.sims.photUtils against its specification.

Shallow embedding of the Python sources:
  PhotometricParameters.py  (photometric parameter configuration),
  EBV.py                    (dust map lookup with bilinear interpolation),
  readGalfast/selectGalaxySED.py (nearest-neighbor SED color matching),
  Photometry.py             (sum_magnitudes).

Modelling conventions: Python None is Option.none; a raised exception is an
Except.error value (or Option.none where only the presence of a result
matters); float magnitudes and map data are rationals except where the code
is genuinely transcendental (sum_magnitudes uses powers of ten and log10,
modelled over the reals); a possibly-NaN float is an Option rational with
none standing for NaN, and arithmetic on it propagates none the way IEEE
arithmetic propagates NaN.
-/

namespace PhotUtils

/-! Default photometric parameter dictionaries, from class
DefaultPhotometricParameters.  Each dictionary maps a bandpass name to the
default value; lookup of an absent key gives none (a Python KeyError cannot
occur because the code guards lookups by membership in bandpassNames). -/

namespace DefaultPhotometricParameters

def bandpassNames : List String := ["u", "g", "r", "i", "z", "y", "any"]

/-- Dictionary of exposure times in seconds. -/
def exptime : String → Option ℚ
  | "u" => some 15.0
  | "g" => some 15.0
  | "r" => some 15.0
  | "i" => some 15.0
  | "z" => some 15.0
  | "y" => some 15.0
  | "any" => some 15.0
  | _ => none

/-- Dictionary of numbers of exposures. -/
def nexp : String → Option ℚ
  | "u" => some 2
  | "g" => some 2
  | "r" => some 2
  | "i" => some 2
  | "z" => some 2
  | "y" => some 2
  | "any" => some 2
  | _ => none

/-- Dictionary of effective areas in square centimeters. -/
def effarea : String → Option ℚ
  | "u" => some 331830.724
  | "g" => some 331830.724
  | "r" => some 331830.724
  | "i" => some 331830.724
  | "z" => some 331830.724
  | "y" => some 331830.724
  | "any" => some 331830.724
  | _ => none

/-- Dictionary of gains in electrons per ADU. -/
def gain : String → Option ℚ
  | "u" => some 2.3
  | "g" => some 2.3
  | "r" => some 2.3
  | "i" => some 2.3
  | "z" => some 2.3
  | "y" => some 2.3
  | "any" => some 2.3
  | _ => none

/-- Dictionary of read noises in electrons per pixel per exposure. -/
def readnoise : String → Option ℚ
  | "u" => some 5.0
  | "g" => some 5.0
  | "r" => some 5.0
  | "i" => some 5.0
  | "z" => some 5.0
  | "y" => some 5.0
  | "any" => some 5.0
  | _ => none

/-- Dictionary of dark currents in electrons per pixel per second. -/
def darkcurrent : String → Option ℚ
  | "u" => some 0.2
  | "g" => some 0.2
  | "r" => some 0.2
  | "i" => some 0.2
  | "z" => some 0.2
  | "y" => some 0.2
  | "any" => some 0.2
  | _ => none

/-- Dictionary of other noise in electrons per pixel per exposure. -/
def othernoise : String → Option ℚ
  | "u" => some 4.69
  | "g" => some 4.69
  | "r" => some 4.69
  | "i" => some 4.69
  | "z" => some 4.69
  | "y" => some 4.69
  | "any" => some 4.69
  | _ => none

/-- Dictionary of plate scales in arcseconds per pixel. -/
def platescale : String → Option ℚ
  | "u" => some 0.2
  | "g" => some 0.2
  | "r" => some 0.2
  | "i" => some 0.2
  | "z" => some 0.2
  | "y" => some 0.2
  | "any" => some 0.2
  | _ => none

/-- Dictionary of systematic errors in magnitudes. -/
def sigmaSys : String → Option ℚ
  | "u" => some 0.0075
  | "g" => some 0.005
  | "r" => some 0.005
  | "i" => some 0.005
  | "z" => some 0.0075
  | "y" => some 0.0075
  | "any" => some 0.005
  | _ => none

end DefaultPhotometricParameters

/-- The keyword arguments of the PhotometricParameters constructor, in
signature order; every parameter defaults to None. -/
structure PhotParamsInput where
  exptime : Option ℚ
  nexp : Option ℚ
  effarea : Option ℚ
  gain : Option ℚ
  readnoise : Option ℚ
  darkcurrent : Option ℚ
  othernoise : Option ℚ
  platescale : Option ℚ
  sigmaSys : Option ℚ
  bandpass : Option String
deriving DecidableEq, Repr

/-- The member variables of a PhotometricParameters object. -/
structure PhotometricParameters where
  _bandpass : Option String
  _exptime : Option ℚ
  _nexp : Option ℚ
  _effarea : Option ℚ
  _gain : Option ℚ
  _platescale : Option ℚ
  _sigmaSys : Option ℚ
  _readnoise : Option ℚ
  _darkcurrent : Option ℚ
  _othernoise : Option ℚ
deriving DecidableEq, Repr

/-- The key used to look up defaults: the bandpass name, or "any" when the
bandpass argument is None. -/
def bandpassKey (bandpass : Option String) : String :=
  match bandpass with
  | none => "any"
  | some b => b

/-- The default applied to one member variable: the dictionary value when the
key is a known bandpass name, otherwise the member stays None. -/
def defaultFor (dict : String → Option ℚ) (key : String) : Option ℚ :=
  if key ∈ DefaultPhotometricParameters.bandpassNames then dict key else none

/-- An explicitly passed (non-None) keyword overrides the default. -/
def overrideWith (explicit dflt : Option ℚ) : Option ℚ :=
  match explicit with
  | some v => some v
  | none => dflt

/-- The member variables after applying bandpass defaults and then the
explicit keyword overrides (constructor body before validation). -/
def resolveAll (input : PhotParamsInput) : PhotometricParameters :=
  { _bandpass := input.bandpass
    _exptime := overrideWith input.exptime
      (defaultFor DefaultPhotometricParameters.exptime (bandpassKey input.bandpass))
    _nexp := overrideWith input.nexp
      (defaultFor DefaultPhotometricParameters.nexp (bandpassKey input.bandpass))
    _effarea := overrideWith input.effarea
      (defaultFor DefaultPhotometricParameters.effarea (bandpassKey input.bandpass))
    _gain := overrideWith input.gain
      (defaultFor DefaultPhotometricParameters.gain (bandpassKey input.bandpass))
    _platescale := overrideWith input.platescale
      (defaultFor DefaultPhotometricParameters.platescale (bandpassKey input.bandpass))
    _sigmaSys := overrideWith input.sigmaSys
      (defaultFor DefaultPhotometricParameters.sigmaSys (bandpassKey input.bandpass))
    _readnoise := overrideWith input.readnoise
      (defaultFor DefaultPhotometricParameters.readnoise (bandpassKey input.bandpass))
    _darkcurrent := overrideWith input.darkcurrent
      (defaultFor DefaultPhotometricParameters.darkcurrent (bandpassKey input.bandpass))
    _othernoise := overrideWith input.othernoise
      (defaultFor DefaultPhotometricParameters.othernoise (bandpassKey input.bandpass)) }

/-- The failure message accumulated by the constructor validation, in source
order. -/
def failureMessage (pp : PhotometricParameters) : String :=
  (if pp._exptime = none then "did not set exptime\n" else "")
  ++ (if pp._nexp = none then "did not set nexp\n" else "")
  ++ (if pp._effarea = none then "did not set effarea\n" else "")
  ++ (if pp._gain = none then "did not set gain\n" else "")
  ++ (if pp._platescale = none then "did not set platescale\n" else "")
  ++ (if pp._sigmaSys = none then "did not set sigmaSys\n" else "")
  ++ (if pp._readnoise = none then "did not set readnoise\n" else "")
  ++ (if pp._darkcurrent = none then "did not set darkcurrent\n" else "")
  ++ (if pp._othernoise = none then "did not set othernoise\n" else "")

/-- The failure count accumulated by the constructor validation. -/
def failureCt (pp : PhotometricParameters) : Nat :=
  (if pp._exptime = none then 1 else 0)
  + (if pp._nexp = none then 1 else 0)
  + (if pp._effarea = none then 1 else 0)
  + (if pp._gain = none then 1 else 0)
  + (if pp._platescale = none then 1 else 0)
  + (if pp._sigmaSys = none then 1 else 0)
  + (if pp._readnoise = none then 1 else 0)
  + (if pp._darkcurrent = none then 1 else 0)
  + (if pp._othernoise = none then 1 else 0)

/-- The PhotometricParameters constructor: resolve defaults and overrides,
then raise RuntimeError naming the unset parameters when any of the nine
is still None. -/
def photParamsInit (input : PhotParamsInput) : Except String PhotometricParameters :=
  if 0 < failureCt (resolveAll input) then
    Except.error ("In PhotometricParameters:\n" ++ failureMessage (resolveAll input))
  else
    Except.ok (resolveAll input)

/-- Specification-side predicate: at least one of the nine parameters is
still None. -/
def hasMissing (pp : PhotometricParameters) : Prop :=
  pp._exptime = none ∨ pp._nexp = none ∨ pp._effarea = none ∨ pp._gain = none ∨
  pp._platescale = none ∨ pp._sigmaSys = none ∨ pp._readnoise = none ∨
  pp._darkcurrent = none ∨ pp._othernoise = none

instance (pp : PhotometricParameters) : Decidable (hasMissing pp) := by
  unfold hasMissing
  infer_instance

/-- Specification-side rendering of the failure message from a list of unset
parameter names: one line per name, in order. -/
def unsetMessage : List String → String
  | [] => ""
  | s :: rest => "did not set " ++ s ++ "\n" ++ unsetMessage rest

/-- Specification-side list of the names of the unset parameters, in the
order the validation checks them. -/
def unsetNames (pp : PhotometricParameters) : List String :=
  (if pp._exptime = none then ["exptime"] else [])
  ++ (if pp._nexp = none then ["nexp"] else [])
  ++ (if pp._effarea = none then ["effarea"] else [])
  ++ (if pp._gain = none then ["gain"] else [])
  ++ (if pp._platescale = none then ["platescale"] else [])
  ++ (if pp._sigmaSys = none then ["sigmaSys"] else [])
  ++ (if pp._readnoise = none then ["readnoise"] else [])
  ++ (if pp._darkcurrent = none then ["darkcurrent"] else [])
  ++ (if pp._othernoise = none then ["othernoise"] else [])

/-! Property setters of PhotometricParameters.  Every setter unconditionally
raises RuntimeError; a raised exception is an Except.error carrying the
message.  trySetAttr gives the state of the object after an attempted
assignment: Python leaves the object untouched when the setter raises. -/

def setBandpass (_pp : PhotometricParameters) (_value : Option String) :
    Except String PhotometricParameters :=
  Except.error ("You should not be setting bandpass on the fly; "
    ++ "Just instantiate a new case of PhotometricParameters")

def setExptime (_pp : PhotometricParameters) (_value : ℚ) :
    Except String PhotometricParameters :=
  Except.error ("You should not be setting exptime on the fly; "
    ++ "Just instantiate a new case of PhotometricParameters")

def setNexp (_pp : PhotometricParameters) (_value : ℚ) :
    Except String PhotometricParameters :=
  Except.error ("You should not be setting nexp on the fly; "
    ++ "Just instantiate a new case of PhotometricParameters")

def setEffarea (_pp : PhotometricParameters) (_value : ℚ) :
    Except String PhotometricParameters :=
  Except.error ("You should not be setting effarea on the fly; "
    ++ "Just instantiate a new case of PhotometricParameters")

def setGain (_pp : PhotometricParameters) (_value : ℚ) :
    Except String PhotometricParameters :=
  Except.error ("You should not be setting gain on the fly; "
    ++ "Just instantiate a new case of PhotometricParameters")

def setPlatescale (_pp : PhotometricParameters) (_value : ℚ) :
    Except String PhotometricParameters :=
  Except.error ("You should not be setting platescale on the fly; "
    ++ "Just instantiate a new case of PhotometricParameters")

def setReadnoise (_pp : PhotometricParameters) (_value : ℚ) :
    Except String PhotometricParameters :=
  Except.error ("You should not be setting readnoise on the fly; "
    ++ "Just instantiate a new case of PhotometricParameters")

def setDarkcurrent (_pp : PhotometricParameters) (_value : ℚ) :
    Except String PhotometricParameters :=
  Except.error ("You should not be setting darkcurrent on the fly; "
    ++ "Just instantiate a new case of PhotometricParameters")

def setOthernoise (_pp : PhotometricParameters) (_value : ℚ) :
    Except String PhotometricParameters :=
  Except.error ("You should not be setting othernoise on the fly; "
    ++ "Just instantiate a new case of PhotometricParameters")

def setSigmaSys (_pp : PhotometricParameters) (_value : ℚ) :
    Except String PhotometricParameters :=
  Except.error ("You should not be setting sigmaSys on the fly; "
    ++ "Just instantiate a new case of PhotometricParameters")

/-- The object state after an attempted attribute assignment: the new state
on success, the unchanged object when the setter raised. -/
def trySetAttr (pp : PhotometricParameters)
    (r : Except String PhotometricParameters) : PhotometricParameters :=
  match r with
  | Except.ok q => q
  | Except.error _ => pp

/-! Embedding of EBV.py.  The dust map data is a two-dimensional pixel grid;
skyToXY (trigonometric projection, outside the scope of the interpolation
claim) is abstracted: generateEbv is given the pixel coordinates x, y it
produces.  Python int() truncates toward zero. -/

/-- Python int(): truncation toward zero. -/
def pyInt (q : ℚ) : Int :=
  if 0 ≤ q then ⌊q⌋ else ⌈q⌉

/-- One-dimensional interpolation on a grid, from interp1D. -/
def interp1D (z1 z2 offset : ℚ) : ℚ :=
  (z2 - z1) * offset + z1

/-- A loaded extinction map: nr rows, nc columns, and the pixel data. -/
structure EbvMap where
  nr : Nat
  nc : Nat
  data : Int → Int → ℚ

/-- EbvMap.generateEbv at pixel coordinates x, y (the output of skyToXY):
nearest pixel when interpolate is false, otherwise interpolation in x along
two adjacent rows followed by interpolation of the two results in y. -/
def generateEbv (m : EbvMap) (x y : ℚ) (interpolate : Bool) : ℚ :=
  let ix : Int := pyInt (x + 0.5)
  let iy : Int := pyInt (y + 0.5)
  if interpolate then
    let ixLow : Int := if ix = (m.nc : Int) - 1 then ix - 1 else ix
    let ixHigh : Int := if ix = (m.nc : Int) - 1 then ix else ix + 1
    let dx : ℚ := if ix = (m.nc : Int) - 1 then (ix : ℚ) - x else x - (ix : ℚ)
    let iyLow : Int := if iy = (m.nr : Int) - 1 then iy - 1 else iy
    let iyHigh : Int := if iy = (m.nr : Int) - 1 then iy else iy + 1
    let dy : ℚ := if iy = (m.nr : Int) - 1 then (iy : ℚ) - y else y - (iy : ℚ)
    let xLow := interp1D (m.data iyLow ixLow) (m.data iyLow ixHigh) dx
    let xHigh := interp1D (m.data iyHigh ixLow) (m.data iyHigh ixHigh) dx
    interp1D xLow xHigh dy
  else
    m.data iy ix

/-- Specification-side standard bilinear combination of four pixel values
with weights dx and dy. -/
def bilinear (q00 q10 q01 q11 dx dy : ℚ) : ℚ :=
  (1 - dx) * (1 - dy) * q00 + dx * (1 - dy) * q10
    + (1 - dx) * dy * q01 + dx * dy * q11

/-- Specification-side choice of the column pair and x weight, as the claim
states it: the pair (ix - 1, ix) with weight ix - x at the upper boundary,
the pair (ix, ix + 1) with weight x - ix otherwise. -/
def xPairSel (nc : Nat) (x : ℚ) : Int × Int × ℚ :=
  let ix := pyInt (x + 0.5)
  if ix = (nc : Int) - 1 then (ix - 1, ix, (ix : ℚ) - x)
  else (ix, ix + 1, x - (ix : ℚ))

/-- Specification-side choice of the row pair and y weight, symmetric to
xPairSel. -/
def yPairSel (nr : Nat) (y : ℚ) : Int × Int × ℚ :=
  let iy := pyInt (y + 0.5)
  if iy = (nr : Int) - 1 then (iy - 1, iy, (iy : ℚ) - y)
  else (iy, iy + 1, y - (iy : ℚ))

/-- EBVmixin.calculateEbv.  The two hemisphere maps are abstracted as lookup
functions taking longitude, latitude and the interpolate flag (the shape of
EbvMap.generateEbv); the source loops over the zipped coordinate lists and
appends one lookup per pair, dispatching on the sign of the latitude. -/
def calculateEbv (northMap southMap : ℚ → ℚ → Bool → ℚ)
    (gLon gLat : List ℚ) (interp : Bool) : List ℚ :=
  (gLon.zip gLat).map (fun p =>
    if p.2 ≤ 0 then southMap p.1 p.2 interp else northMap p.1 p.2 interp)

/-! Embedding of the color-matching core of selectGalaxySED.py.  Magnitudes
and colors are possibly-NaN floats, modelled as Option rationals with none
standing for NaN; nanSub, nanAdd and nanSq propagate none the way IEEE
arithmetic propagates NaN. -/

/-- NaN-propagating subtraction. -/
def nanSub : Option ℚ → Option ℚ → Option ℚ
  | some a, some b => some (a - b)
  | _, _ => none

/-- NaN-propagating addition. -/
def nanAdd : Option ℚ → Option ℚ → Option ℚ
  | some a, some b => some (a + b)
  | _, _ => none

/-- NaN-propagating square. -/
def nanSq : Option ℚ → Option ℚ
  | some a => some (a * a)
  | none => none

/-- Adjacent-band colors of a magnitude list: mags k minus mags (k + 1)
for every k, as the loops over filtNum compute them. -/
def adjacentColors (mags : List (Option ℚ)) : List (Option ℚ) :=
  (mags.zip mags.tail).map (fun p => nanSub p.1 p.2)

/-- The summed squared color distance accumulated by matchToRestFrame for
one model: distanceArray starts at zero and adds the squared difference for
every adjacent band pair. -/
def colorDistance (modelColors catColors : List (Option ℚ)) : Option ℚ :=
  (modelColors.zip catColors).foldl
    (fun acc p => nanAdd acc (nanSq (nanSub p.1 p.2))) (some 0)

/-- The distance array of matchToRestFrame over models, rendered per model
(the source accumulates the same sums on a numpy vector over models). -/
def restFrameDistanceArray (modelColorSets : List (List (Option ℚ)))
    (catColors : List (Option ℚ)) : List (Option ℚ) :=
  modelColorSets.map (fun mc => colorDistance mc catColors)

/-- Models numpy.nanargmin: fold over the list keeping the index and value
of the smallest non-NaN entry seen so far (strict comparison keeps the first
index on ties, as numpy argmin does); no result when every entry is NaN. -/
def nanargminAux : List (Option ℚ) → Nat → Option (Nat × ℚ) → Option (Nat × ℚ)
  | [], _, best => best
  | none :: rest, i, best => nanargminAux rest (i + 1) best
  | some v :: rest, i, none => nanargminAux rest (i + 1) (some (i, v))
  | some v :: rest, i, some (bi, bv) =>
      nanargminAux rest (i + 1) (if v < bv then some (i, v) else some (bi, bv))

/-- numpy.nanargmin: the index of the smallest non-NaN entry; none models
the ValueError numpy raises when every entry is NaN. -/
def nanargmin (l : List (Option ℚ)) : Option Nat :=
  (nanargminAux l 0 none).map Prod.fst

/-- The matching step of matchToRestFrame for one catalog object: form the
catalog colors, take nanargmin of the summed squared color distances to all
models, and return the name of the selected model.  A none result models an
exception reaching the caller (nanargmin ValueError or an invalid index). -/
def matchToRestFrameOne (modelColorSets : List (List (Option ℚ)))
    (names : List String) (catMags : List (Option ℚ)) : Option String :=
  (nanargmin (restFrameDistanceArray modelColorSets (adjacentColors catMags))).bind
    (fun i => names[i]?)

/-- matchToRestFrame over the whole catalog: one match per object, in
catalog order. -/
def matchToRestFrame (modelColorSets : List (List (Option ℚ)))
    (names : List String) (catMagsList : List (List (Option ℚ))) :
    List (Option String) :=
  catMagsList.map (matchToRestFrameOne modelColorSets names)

/-- The distance array built by the inner loop of matchToObserved, which
REASSIGNS distanceArray on every filter index instead of accumulating:
each step of the fold discards the accumulator, so only the last adjacent
band pair survives.  colorSet is color-major (one model vector per color
index), as after the numpy transpose; a none result models the unbound
distanceArray when there are no color pairs. -/
def observedDistanceArray (colorSet : List (List (Option ℚ)))
    (matchColors : List (Option ℚ)) : Option (List (Option ℚ)) :=
  (colorSet.zip matchColors).foldl
    (fun _ p => some (p.1.map (fun c => nanSq (nanSub c p.2)))) none

/-- The per-object matching step of matchToObserved at the redshift bin of
the object: nanargmin of its distance array, then the model name. -/
def matchToObservedOne (colorSet : List (List (Option ℚ)))
    (names : List String) (matchMags : List (Option ℚ)) : Option String :=
  (observedDistanceArray colorSet (adjacentColors matchMags)).bind
    (fun dist => (nanargmin dist).bind (fun i => names[i]?))

/-! Embedding of PhotometryGalaxies.sum_magnitudes from Photometry.py.
A component magnitude can be None, NaN, or a float value; the flux
conversion uses a power of ten and log10, so this part is modelled over the
reals. -/

/-- A Python float argument that can be None, NaN, or a real value. -/
inductive PyFloat where
  | none
  | nan
  | val (x : ℝ)

/-- The guard of sum_magnitudes: a component is skipped when it is None or
NaN. -/
def isMissingMag : PyFloat → Bool
  | PyFloat.none => true
  | PyFloat.nan => true
  | PyFloat.val _ => false

/-- The flux round-trip base: ten to the power (m - 22) / -2.5, as
numpy.power(10, (m - mm_o) / -2.5) with mm_o = 22. -/
noncomputable def fluxFromMag (m : ℝ) : ℝ :=
  (10 : ℝ) ^ ((m - 22) / (-2.5))

/-- The contribution of one component to the summed flux nn: its flux when
present, zero when None or NaN. -/
noncomputable def magContribution : PyFloat → ℝ
  | PyFloat.val x => fluxFromMag x
  | _ => 0

open scoped Classical in
/-- PhotometryGalaxies.sum_magnitudes: add the fluxes of the components that
are neither None nor NaN; when the sum is positive return
-2.5 * log10 (sum) + 22, otherwise return None. -/
noncomputable def sum_magnitudes (disk bulge agn : PyFloat) : Option ℝ :=
  let nn := magContribution disk + magContribution bulge + magContribution agn
  if nn > 0 then some (-2.5 * Real.logb 10 nn + 22) else none

/-! Helper lemmas about the constructor validation. -/

lemma failureCt_eq_length (pp : PhotometricParameters) :
    failureCt pp = (unsetNames pp).length := by
  unfold failureCt unsetNames
  simp only [List.length_append, apply_ite List.length, List.length_singleton,
    List.length_nil]

lemma unsetNames_ne_nil_iff (pp : PhotometricParameters) :
    unsetNames pp ≠ [] ↔ hasMissing pp := by
  unfold unsetNames hasMissing
  constructor
  · intro hne
    by_contra hmiss
    push_neg at hmiss
    obtain ⟨h1, h2, h3, h4, h5, h6, h7, h8, h9⟩ := hmiss
    exact hne (by simp [h1, h2, h3, h4, h5, h6, h7, h8, h9])
  · intro hmiss hnil
    rcases hmiss with hm | hm | hm | hm | hm | hm | hm | hm | hm <;>
      simp [hm, List.append_eq_nil] at hnil

lemma unsetMessage_append (a b : List String) :
    unsetMessage (a ++ b) = unsetMessage a ++ unsetMessage b := by
  induction a with
  | nil => simp [unsetMessage, String.empty_append]
  | cons x t ih => simp [unsetMessage, ih, String.append_assoc]

lemma unsetMessage_chunk (c : Prop) [Decidable c] (s : String) :
    unsetMessage (if c then [s] else []) =
      if c then "did not set " ++ s ++ "\n" else "" := by
  by_cases hc : c <;> simp [hc, unsetMessage, String.append_empty, String.append_assoc]

lemma failureMessage_eq_unsetMessage (pp : PhotometricParameters) :
    failureMessage pp = unsetMessage (unsetNames pp) := by
  unfold failureMessage unsetNames
  simp only [unsetMessage_append, unsetMessage_chunk]
  rfl

lemma photParamsInit_eq_error (input : PhotParamsInput)
    (h : hasMissing (resolveAll input)) :
    photParamsInit input =
      Except.error ("In PhotometricParameters:\n" ++ failureMessage (resolveAll input)) := by
  unfold photParamsInit
  rw [if_pos]
  rw [failureCt_eq_length]
  exact List.length_pos.mpr ((unsetNames_ne_nil_iff (resolveAll input)).mpr h)

lemma photParamsInit_eq_ok (input : PhotParamsInput)
    (h : ¬ hasMissing (resolveAll input)) :
    photParamsInit input = Except.ok (resolveAll input) := by
  have hnil : unsetNames (resolveAll input) = [] := by
    by_contra hne
    exact h ((unsetNames_ne_nil_iff _).mp hne)
  unfold photParamsInit
  rw [failureCt_eq_length, hnil]
  simp

lemma defaults_isSome (key : String)
    (hk : key ∈ DefaultPhotometricParameters.bandpassNames) :
    (DefaultPhotometricParameters.exptime key).isSome = true ∧
    (DefaultPhotometricParameters.nexp key).isSome = true ∧
    (DefaultPhotometricParameters.effarea key).isSome = true ∧
    (DefaultPhotometricParameters.gain key).isSome = true ∧
    (DefaultPhotometricParameters.platescale key).isSome = true ∧
    (DefaultPhotometricParameters.sigmaSys key).isSome = true ∧
    (DefaultPhotometricParameters.readnoise key).isSome = true ∧
    (DefaultPhotometricParameters.darkcurrent key).isSome = true ∧
    (DefaultPhotometricParameters.othernoise key).isSome = true := by
  fin_cases hk <;> exact ⟨rfl, rfl, rfl, rfl, rfl, rfl, rfl, rfl, rfl⟩

lemma overrideWith_ne_none (explicit dflt : Option ℚ) (h : dflt.isSome = true) :
    overrideWith explicit dflt ≠ none := by
  cases explicit <;> cases dflt <;> simp_all [overrideWith]

lemma defaultFor_of_mem (dict : String → Option ℚ) (key : String)
    (h : key ∈ DefaultPhotometricParameters.bandpassNames) :
    defaultFor dict key = dict key := by
  unfold defaultFor
  rw [if_pos h]

/-- C1: every call of the PhotometricParameters constructor raises
RuntimeError if and only if, after applying the bandpass defaults (under the
given name, or under "any" when bandpass is None) and then the explicit
keyword overrides, at least one of the nine parameters is still None; the
error message names every unset parameter; and when nothing is missing
construction succeeds. -/
theorem photParams_error_iff_missing (input : PhotParamsInput) :
    ((∃ e, photParamsInit input = Except.error e) ↔ hasMissing (resolveAll input)) ∧
    (∀ e, photParamsInit input = Except.error e →
      e = "In PhotometricParameters:\n" ++ unsetMessage (unsetNames (resolveAll input))) ∧
    (¬ hasMissing (resolveAll input) →
      photParamsInit input = Except.ok (resolveAll input)) := by
  by_cases h : hasMissing (resolveAll input)
  · refine ⟨⟨fun _ => h, fun _ => ⟨_, photParamsInit_eq_error input h⟩⟩, ?_,
      fun hc => absurd h hc⟩
    intro e he
    rw [photParamsInit_eq_error input h] at he
    simp only [Except.error.injEq] at he
    rw [← he, failureMessage_eq_unsetMessage]
  · have hok := photParamsInit_eq_ok input h
    refine ⟨⟨?_, fun hm => absurd hm h⟩, ?_, fun _ => hok⟩
    · rintro ⟨e, he⟩
      rw [hok] at he
      exact absurd he (by simp)
    · intro e he
      rw [hok] at he
      exact absurd he (by simp)

/-- Witness for C1: with bandpass "u" and no explicit keyword, nothing is
missing and construction succeeds. -/
theorem photParams_error_iff_missing_witness :
    photParamsInit ⟨none, none, none, none, none, none, none, none, none, some "u"⟩ =
      Except.ok (resolveAll ⟨none, none, none, none, none, none, none, none, none, some "u"⟩) :=
  (photParams_error_iff_missing _).2.2 (by decide)

/-- C2: constructed with a known bandpass name (or with bandpass None, in
which case the "any" defaults apply and the stored bandpass member remains
None), construction succeeds, and each of the nine stored parameters equals
the explicitly passed value when one was given and the default from
DefaultPhotometricParameters otherwise. -/
theorem photParams_defaults_and_overrides (input : PhotParamsInput)
    (h : input.bandpass = none ∨
      ∃ b, input.bandpass = some b ∧ b ∈ (["u", "g", "r", "i", "z", "y"] : List String)) :
    ∃ pp, photParamsInit input = Except.ok pp ∧
      pp._bandpass = input.bandpass ∧
      (∀ v, input.exptime = some v → pp._exptime = some v) ∧
      (input.exptime = none →
        pp._exptime = DefaultPhotometricParameters.exptime (bandpassKey input.bandpass)) ∧
      (∀ v, input.nexp = some v → pp._nexp = some v) ∧
      (input.nexp = none →
        pp._nexp = DefaultPhotometricParameters.nexp (bandpassKey input.bandpass)) ∧
      (∀ v, input.effarea = some v → pp._effarea = some v) ∧
      (input.effarea = none →
        pp._effarea = DefaultPhotometricParameters.effarea (bandpassKey input.bandpass)) ∧
      (∀ v, input.gain = some v → pp._gain = some v) ∧
      (input.gain = none →
        pp._gain = DefaultPhotometricParameters.gain (bandpassKey input.bandpass)) ∧
      (∀ v, input.platescale = some v → pp._platescale = some v) ∧
      (input.platescale = none →
        pp._platescale = DefaultPhotometricParameters.platescale (bandpassKey input.bandpass)) ∧
      (∀ v, input.sigmaSys = some v → pp._sigmaSys = some v) ∧
      (input.sigmaSys = none →
        pp._sigmaSys = DefaultPhotometricParameters.sigmaSys (bandpassKey input.bandpass)) ∧
      (∀ v, input.readnoise = some v → pp._readnoise = some v) ∧
      (input.readnoise = none →
        pp._readnoise = DefaultPhotometricParameters.readnoise (bandpassKey input.bandpass)) ∧
      (∀ v, input.darkcurrent = some v → pp._darkcurrent = some v) ∧
      (input.darkcurrent = none →
        pp._darkcurrent = DefaultPhotometricParameters.darkcurrent (bandpassKey input.bandpass)) ∧
      (∀ v, input.othernoise = some v → pp._othernoise = some v) ∧
      (input.othernoise = none →
        pp._othernoise = DefaultPhotometricParameters.othernoise (bandpassKey input.bandpass)) := by
  have hkey : bandpassKey input.bandpass ∈ DefaultPhotometricParameters.bandpassNames := by
    rcases h with h | ⟨b, hb, hmem⟩
    · rw [h]
      decide
    · rw [hb]
      fin_cases hmem <;> decide
  obtain ⟨h1, h2, h3, h4, h5, h6, h7, h8, h9⟩ := defaults_isSome _ hkey
  have hmiss : ¬ hasMissing (resolveAll input) := by
    intro hm
    rcases hm with hm | hm | hm | hm | hm | hm | hm | hm | hm <;>
      simp only [resolveAll] at hm
    · exact overrideWith_ne_none _ _ (by rw [defaultFor_of_mem _ _ hkey]; exact h1) hm
    · exact overrideWith_ne_none _ _ (by rw [defaultFor_of_mem _ _ hkey]; exact h2) hm
    · exact overrideWith_ne_none _ _ (by rw [defaultFor_of_mem _ _ hkey]; exact h3) hm
    · exact overrideWith_ne_none _ _ (by rw [defaultFor_of_mem _ _ hkey]; exact h4) hm
    · exact overrideWith_ne_none _ _ (by rw [defaultFor_of_mem _ _ hkey]; exact h5) hm
    · exact overrideWith_ne_none _ _ (by rw [defaultFor_of_mem _ _ hkey]; exact h6) hm
    · exact overrideWith_ne_none _ _ (by rw [defaultFor_of_mem _ _ hkey]; exact h7) hm
    · exact overrideWith_ne_none _ _ (by rw [defaultFor_of_mem _ _ hkey]; exact h8) hm
    · exact overrideWith_ne_none _ _ (by rw [defaultFor_of_mem _ _ hkey]; exact h9) hm
  refine ⟨resolveAll input, photParamsInit_eq_ok input hmiss, rfl, ?_, ?_, ?_, ?_, ?_, ?_,
    ?_, ?_, ?_, ?_, ?_, ?_, ?_, ?_, ?_, ?_, ?_, ?_⟩ <;>
    first
      | (intro v hv
         simp [resolveAll, overrideWith, hv])
      | (intro hv
         simp [resolveAll, overrideWith, hv, defaultFor_of_mem _ _ hkey])

/-- Witness for C2 at a concrete input: bandpass "g" with an explicit
exposure time. -/
theorem photParams_defaults_and_overrides_witness :
    ∃ pp, photParamsInit ⟨some 30, none, none, none, none, none, none, none, none, some "g"⟩ =
        Except.ok pp ∧ pp._bandpass = some "g" := by
  obtain ⟨pp, hok, hbp, _⟩ := photParams_defaults_and_overrides
    ⟨some 30, none, none, none, none, none, none, none, none, some "g"⟩
    (Or.inr ⟨"g", rfl, by decide⟩)
  exact ⟨pp, hok, hbp⟩

/-- C9: every property setter of PhotometricParameters raises RuntimeError,
and the attempted assignment leaves the stored object unchanged, so every
getter keeps returning the value fixed at construction. -/
theorem photParams_setters_raise (pp : PhotometricParameters) (v : ℚ) (s : Option String) :
    (setBandpass pp s = Except.error "You should not be setting bandpass on the fly; Just instantiate a new case of PhotometricParameters" ∧
      trySetAttr pp (setBandpass pp s) = pp) ∧
    (setExptime pp v = Except.error "You should not be setting exptime on the fly; Just instantiate a new case of PhotometricParameters" ∧
      trySetAttr pp (setExptime pp v) = pp) ∧
    (setNexp pp v = Except.error "You should not be setting nexp on the fly; Just instantiate a new case of PhotometricParameters" ∧
      trySetAttr pp (setNexp pp v) = pp) ∧
    (setEffarea pp v = Except.error "You should not be setting effarea on the fly; Just instantiate a new case of PhotometricParameters" ∧
      trySetAttr pp (setEffarea pp v) = pp) ∧
    (setGain pp v = Except.error "You should not be setting gain on the fly; Just instantiate a new case of PhotometricParameters" ∧
      trySetAttr pp (setGain pp v) = pp) ∧
    (setPlatescale pp v = Except.error "You should not be setting platescale on the fly; Just instantiate a new case of PhotometricParameters" ∧
      trySetAttr pp (setPlatescale pp v) = pp) ∧
    (setReadnoise pp v = Except.error "You should not be setting readnoise on the fly; Just instantiate a new case of PhotometricParameters" ∧
      trySetAttr pp (setReadnoise pp v) = pp) ∧
    (setDarkcurrent pp v = Except.error "You should not be setting darkcurrent on the fly; Just instantiate a new case of PhotometricParameters" ∧
      trySetAttr pp (setDarkcurrent pp v) = pp) ∧
    (setOthernoise pp v = Except.error "You should not be setting othernoise on the fly; Just instantiate a new case of PhotometricParameters" ∧
      trySetAttr pp (setOthernoise pp v) = pp) ∧
    (setSigmaSys pp v = Except.error "You should not be setting sigmaSys on the fly; Just instantiate a new case of PhotometricParameters" ∧
      trySetAttr pp (setSigmaSys pp v) = pp) :=
  ⟨⟨rfl, rfl⟩, ⟨rfl, rfl⟩, ⟨rfl, rfl⟩, ⟨rfl, rfl⟩, ⟨rfl, rfl⟩,
    ⟨rfl, rfl⟩, ⟨rfl, rfl⟩, ⟨rfl, rfl⟩, ⟨rfl, rfl⟩, ⟨rfl, rfl⟩⟩

/-- C3: with interpolate true, generateEbv returns the standard bilinear
combination of the four pixels selected from ix, iy (truncations of
x + 0.5 and y + 0.5) with the pairs and weights the claim states, with the
boundary cases at the last column and row; with interpolate false it
returns the single pixel data at row iy, column ix. -/
theorem generateEbv_bilinear (m : EbvMap) (x y : ℚ) :
    generateEbv m x y true =
      bilinear (m.data (yPairSel m.nr y).1 (xPairSel m.nc x).1)
        (m.data (yPairSel m.nr y).1 (xPairSel m.nc x).2.1)
        (m.data (yPairSel m.nr y).2.1 (xPairSel m.nc x).1)
        (m.data (yPairSel m.nr y).2.1 (xPairSel m.nc x).2.1)
        (xPairSel m.nc x).2.2 (yPairSel m.nr y).2.2 ∧
    generateEbv m x y false = m.data (pyInt (y + 0.5)) (pyInt (x + 0.5)) := by
  constructor
  · simp only [generateEbv, xPairSel, yPairSel, bilinear, interp1D, if_true]
    split_ifs <;> (simp only []; ring)
  · simp [generateEbv]

/-- C4: for equal-length longitude and latitude lists, calculateEbv returns
one value per pair in order, looked up in the southern map when the latitude
is nonpositive and in the northern map otherwise, with the interpolate flag
passed through. -/
theorem calculateEbv_dispatch (northMap southMap : ℚ → ℚ → Bool → ℚ)
    (gLon gLat : List ℚ) (interp : Bool) (h : gLon.length = gLat.length) :
    (calculateEbv northMap southMap gLon gLat interp).length = gLon.length ∧
    ∀ (i : ℕ) (h1 : i < gLon.length) (h2 : i < gLat.length),
      (calculateEbv northMap southMap gLon gLat interp)[i]? =
        some (if gLat[i] ≤ 0 then southMap gLon[i] gLat[i] interp
          else northMap gLon[i] gLat[i] interp) := by
  constructor
  · simp [calculateEbv, h]
  · intro i h1 h2
    have hz : (gLon.zip gLat)[i]? = some (gLon[i], gLat[i]) := by
      rw [List.getElem?_eq_getElem (by rw [List.length_zip]; omega)]
      rw [List.getElem_zip]
    simp [calculateEbv, List.getElem?_map, hz]

/-- Witness for C4 at concrete lists and lookup functions. -/
theorem calculateEbv_dispatch_witness :
    (calculateEbv (fun a b _ => a + b) (fun a b _ => a - b)
      [1, 2] [3, -4] true).length = 2 :=
  (calculateEbv_dispatch (fun a b _ => a + b) (fun a b _ => a - b)
    [1, 2] [3, -4] true rfl).1

/-! Correctness lemmas for the nanargmin model. -/

lemma nanargminAux_spec (l : List (Option ℚ)) :
    ∀ (k : Nat) (best : Option (Nat × ℚ)) (i : Nat) (v : ℚ),
      nanargminAux l k best = some (i, v) →
      (best = some (i, v) ∨ ∃ j : ℕ, i = k + j ∧ l[j]? = some (some v)) ∧
      (∀ bi bv, best = some (bi, bv) → v ≤ bv) ∧
      (∀ (j : ℕ) (w : ℚ), l[j]? = some (some w) → v ≤ w) := by
  induction l with
  | nil =>
    intro k best i v h
    simp only [nanargminAux] at h
    refine ⟨Or.inl h, ?_, ?_⟩
    · intro bi bv hb
      rw [h] at hb
      simp only [Option.some.injEq, Prod.mk.injEq] at hb
      rw [hb.2]
    · intro j w hj
      simp at hj
  | cons a rest ih =>
    intro k best i v h
    cases a with
    | none =>
      simp only [nanargminAux] at h
      obtain ⟨ha, hb, hc⟩ := ih (k + 1) best i v h
      refine ⟨?_, hb, ?_⟩
      · rcases ha with ha | ⟨j, hij, hj⟩
        · exact Or.inl ha
        · exact Or.inr ⟨j + 1, by omega, by simpa using hj⟩
      · intro j w hj
        cases j with
        | zero => simp at hj
        | succ j => exact hc j w (by simpa using hj)
    | some a =>
      cases best with
      | none =>
        simp only [nanargminAux] at h
        obtain ⟨ha, hb, hc⟩ := ih (k + 1) (some (k, a)) i v h
        have hva : v ≤ a := hb k a rfl
        refine ⟨?_, ?_, ?_⟩
        · rcases ha with ha | ⟨j, hij, hj⟩
          · simp only [Option.some.injEq, Prod.mk.injEq] at ha
            obtain ⟨rfl, rfl⟩ := ha
            exact Or.inr ⟨0, by omega, by simp⟩
          · exact Or.inr ⟨j + 1, by omega, by simpa using hj⟩
        · intro bi bv hb'
          simp at hb'
        · intro j w hj
          cases j with
          | zero =>
            simp only [List.getElem?_cons_zero, Option.some.injEq] at hj
            rw [← hj]
            exact hva
          | succ j => exact hc j w (by simpa using hj)
      | some p =>
        obtain ⟨bi, bv⟩ := p
        simp only [nanargminAux] at h
        by_cases hab : a < bv
        · rw [if_pos hab] at h
          obtain ⟨ha, hb, hc⟩ := ih (k + 1) (some (k, a)) i v h
          have hva : v ≤ a := hb k a rfl
          refine ⟨?_, ?_, ?_⟩
          · rcases ha with ha | ⟨j, hij, hj⟩
            · simp only [Option.some.injEq, Prod.mk.injEq] at ha
              obtain ⟨rfl, rfl⟩ := ha
              exact Or.inr ⟨0, by omega, by simp⟩
            · exact Or.inr ⟨j + 1, by omega, by simpa using hj⟩
          · intro bi' bv' hb'
            simp only [Option.some.injEq, Prod.mk.injEq] at hb'
            rw [← hb'.2]
            exact le_trans hva (le_of_lt hab)
          · intro j w hj
            cases j with
            | zero =>
              simp only [List.getElem?_cons_zero, Option.some.injEq] at hj
              rw [← hj]
              exact hva
            | succ j => exact hc j w (by simpa using hj)
        · rw [if_neg hab] at h
          obtain ⟨ha, hb, hc⟩ := ih (k + 1) (some (bi, bv)) i v h
          have hvbv : v ≤ bv := hb bi bv rfl
          refine ⟨?_, ?_, ?_⟩
          · rcases ha with ha | ⟨j, hij, hj⟩
            · exact Or.inl ha
            · exact Or.inr ⟨j + 1, by omega, by simpa using hj⟩
          · intro bi' bv' hb'
            simp only [Option.some.injEq, Prod.mk.injEq] at hb'
            rw [← hb'.2]
            exact hvbv
          · intro j w hj
            cases j with
            | zero =>
              simp only [List.getElem?_cons_zero, Option.some.injEq] at hj
              rw [← hj]
              exact le_trans hvbv (not_lt.mp hab)
            | succ j => exact hc j w (by simpa using hj)

lemma nanargminAux_ne_none (l : List (Option ℚ)) :
    ∀ (k bi : Nat) (bv : ℚ), nanargminAux l k (some (bi, bv)) ≠ none := by
  induction l with
  | nil =>
    intro k bi bv
    simp [nanargminAux]
  | cons a rest ih =>
    intro k bi bv
    cases a with
    | none => simpa [nanargminAux] using ih (k + 1) bi bv
    | some a =>
      simp only [nanargminAux]
      by_cases hab : a < bv
      · rw [if_pos hab]
        exact ih _ _ _
      · rw [if_neg hab]
        exact ih _ _ _

lemma nanargminAux_none_iff (l : List (Option ℚ)) :
    ∀ (k : Nat), nanargminAux l k none = none ↔ ∀ x ∈ l, x = none := by
  induction l with
  | nil =>
    intro k
    simp [nanargminAux]
  | cons a rest ih =>
    intro k
    cases a with
    | none => simp [nanargminAux, List.forall_mem_cons, ih (k + 1)]
    | some a =>
      simp only [nanargminAux]
      constructor
      · intro h
        exact absurd h (nanargminAux_ne_none rest (k + 1) k a)
      · intro h
        exact absurd (h (some a) (by simp)) (by simp)

lemma nanargmin_eq_none_iff (l : List (Option ℚ)) :
    nanargmin l = none ↔ ∀ x ∈ l, x = none := by
  unfold nanargmin
  rw [Option.map_eq_none']
  exact nanargminAux_none_iff l 0

lemma nanargmin_spec (l : List (Option ℚ)) (i : Nat) (h : nanargmin l = some i) :
    ∃ v, l[i]? = some (some v) ∧
      ∀ (j : ℕ) (w : ℚ), l[j]? = some (some w) → v ≤ w := by
  unfold nanargmin at h
  rw [Option.map_eq_some'] at h
  obtain ⟨⟨j0, v⟩, haux, hfst⟩ := h
  simp only at hfst
  obtain ⟨ha, _, hc⟩ := nanargminAux_spec l 0 none j0 v haux
  rcases ha with ha | ⟨j1, hij, hj⟩
  · simp at ha
  · have hji : j1 = i := by omega
    subst hji
    exact ⟨v, hj, hc⟩

/-- C5: for every catalog, matchToRestFrame returns one matched name per
object in catalog order, and every returned name picks the model whose
summed squared color distance to the object is minimal among the non-NaN
distances (nearest neighbor in color space, NaN distances ignored). -/
theorem matchToRestFrame_nearest (modelColorSets : List (List (Option ℚ)))
    (names : List String) (catMagsList : List (List (Option ℚ))) :
    (matchToRestFrame modelColorSets names catMagsList).length = catMagsList.length ∧
    (∀ (j : ℕ) (mags : List (Option ℚ)), catMagsList[j]? = some mags →
      (matchToRestFrame modelColorSets names catMagsList)[j]? =
        some (matchToRestFrameOne modelColorSets names mags)) ∧
    (∀ mags s, matchToRestFrameOne modelColorSets names mags = some s →
      ∃ i v,
        nanargmin (restFrameDistanceArray modelColorSets (adjacentColors mags)) = some i ∧
        names[i]? = some s ∧
        (restFrameDistanceArray modelColorSets (adjacentColors mags))[i]? = some (some v) ∧
        ∀ (j : ℕ) (w : ℚ), (restFrameDistanceArray modelColorSets (adjacentColors mags))[j]? =
          some (some w) → v ≤ w) := by
  refine ⟨by simp [matchToRestFrame], ?_, ?_⟩
  · intro j mags hj
    simp [matchToRestFrame, List.getElem?_map, hj]
  · intro mags s hs
    unfold matchToRestFrameOne at hs
    rw [Option.bind_eq_some] at hs
    obtain ⟨i, hmin, hname⟩ := hs
    obtain ⟨v, hv, hmin'⟩ := nanargmin_spec _ i hmin
    exact ⟨i, v, hmin, hname, hv, hmin'⟩

/-- Witness for C5 at a one-model, one-object catalog. -/
theorem matchToRestFrame_nearest_witness :
    (matchToRestFrame [[some 0]] ["m"] [[some 1, some 1]])[0]? =
      some (matchToRestFrameOne [[some 0]] ["m"] [some 1, some 1]) :=
  (matchToRestFrame_nearest [[some 0]] ["m"] [[some 1, some 1]]).2.1 0 [some 1, some 1] rfl

/-- C6: the inner loop of matchToObserved reassigns the distance array on
every adjacent band pair instead of accumulating, so only the last color
pair decides the match.  Concretely, with two models whose colors are
(0, 1) and (5, 0) and a catalog object with colors (0, 0), the summed
squared distances are 1 and 25, so the summed criterion the claim states
(and matchToRestFrame implements) selects the first model, but
matchToObservedOne selects the second. -/
theorem matchToObserved_last_color_bug :
    matchToObservedOne [[some 0, some 5], [some 1, some 0]] ["A", "B"]
      [some 0, some 0, some 0] = some "B" ∧
    restFrameDistanceArray [[some 0, some 1], [some 5, some 0]]
      (adjacentColors [some 0, some 0, some 0]) = [some 1, some 25] ∧
    matchToRestFrameOne [[some 0, some 1], [some 5, some 0]] ["A", "B"]
      [some 0, some 0, some 0] = some "A" := by
  refine ⟨?_, ?_, ?_⟩
  · norm_num [matchToObservedOne, observedDistanceArray, adjacentColors, nanSub, nanSq,
      nanargmin, nanargminAux]
  · norm_num [restFrameDistanceArray, adjacentColors, colorDistance, nanSub, nanAdd, nanSq]
  · norm_num [matchToRestFrameOne, restFrameDistanceArray, adjacentColors, colorDistance,
      nanSub, nanAdd, nanSq, nanargmin, nanargminAux]

/-- C7 counterexample: when every color distance to the models is NaN,
neither matching routine returns a value at all (none models the exception
from numpy nanargmin on an all-NaN array), contradicting the claim that a
NaN result is returned to the caller rather than an exception being
raised. -/
theorem matchNoMatch_nan_counterexample :
    matchToRestFrameOne [[some 0]] ["A"] [none, none] = none ∧
    matchToObservedOne [[some 0]] ["A"] [none, none] = none := by
  refine ⟨by decide, by decide⟩

/-- C7 amended: when every color distance for a catalog object is NaN, the
matching routines produce no result (numpy nanargmin raises ValueError, so
an exception propagates to the caller); no NaN value is returned. -/
theorem matchNoMatch_raises (modelColorSets colorSet : List (List (Option ℚ)))
    (names : List String) (mags : List (Option ℚ)) :
    ((∀ d ∈ restFrameDistanceArray modelColorSets (adjacentColors mags), d = none) →
      matchToRestFrameOne modelColorSets names mags = none) ∧
    (∀ dist, observedDistanceArray colorSet (adjacentColors mags) = some dist →
      (∀ d ∈ dist, d = none) → matchToObservedOne colorSet names mags = none) := by
  constructor
  · intro h
    unfold matchToRestFrameOne
    rw [(nanargmin_eq_none_iff _).mpr h]
    rfl
  · intro dist hdist h
    unfold matchToObservedOne
    rw [hdist]
    simp [(nanargmin_eq_none_iff dist).mpr h]

/-- Witness for C7 amended at a concrete all-NaN input. -/
theorem matchNoMatch_raises_witness :
    matchToObservedOne [[some 0]] ["B"] [none, none] = none :=
  (matchNoMatch_raises [[some 0]] [[some 0]] ["B"] [none, none]).2 [none] rfl (by decide)

/-! Helper lemmas for sum_magnitudes. -/

lemma fluxFromMag_pos (m : ℝ) : 0 < fluxFromMag m :=
  Real.rpow_pos_of_pos (by norm_num) _

lemma magContribution_nonneg (p : PyFloat) : 0 ≤ magContribution p := by
  cases p with
  | none => exact le_refl 0
  | nan => exact le_refl 0
  | val x => exact le_of_lt (fluxFromMag_pos x)

lemma magContribution_eq_zero_iff (p : PyFloat) :
    magContribution p = 0 ↔ isMissingMag p = true := by
  cases p with
  | none => simp [magContribution, isMissingMag]
  | nan => simp [magContribution, isMissingMag]
  | val x => simp [magContribution, isMissingMag, (fluxFromMag_pos x).ne']

lemma sumContribution_pos_iff (disk bulge agn : PyFloat) :
    0 < magContribution disk + magContribution bulge + magContribution agn ↔
      ¬(isMissingMag disk = true ∧ isMissingMag bulge = true ∧ isMissingMag agn = true) := by
  have hzero :
      magContribution disk + magContribution bulge + magContribution agn = 0 ↔
        (isMissingMag disk = true ∧ isMissingMag bulge = true ∧ isMissingMag agn = true) := by
    rw [add_eq_zero_iff_of_nonneg
        (add_nonneg (magContribution_nonneg disk) (magContribution_nonneg bulge))
        (magContribution_nonneg agn),
      add_eq_zero_iff_of_nonneg (magContribution_nonneg disk) (magContribution_nonneg bulge),
      magContribution_eq_zero_iff, magContribution_eq_zero_iff, magContribution_eq_zero_iff,
      and_assoc]
  constructor
  · intro h hall
    rw [hzero.mpr hall] at h
    exact lt_irrefl 0 h
  · intro h
    rcases lt_or_eq_of_le
        (add_nonneg (add_nonneg (magContribution_nonneg disk) (magContribution_nonneg bulge))
          (magContribution_nonneg agn)) with hlt | heq
    · exact hlt
    · exact absurd (hzero.mp heq.symm) h

lemma magContribution_val (x : ℝ) :
    magContribution (PyFloat.val x) = fluxFromMag x := rfl

lemma neg_two_five_logb_flux (m : ℝ) :
    -2.5 * Real.logb 10 (fluxFromMag m) + 22 = m := by
  unfold fluxFromMag
  rw [Real.logb_rpow (by norm_num) (by norm_num)]
  ring

/-- C10: sum_magnitudes returns None exactly when all three component
magnitudes are None or NaN; otherwise it returns -2.5 times the base ten
logarithm of the summed component fluxes, plus 22; and when exactly one
component magnitude m is present the result is m itself (the flux
round-trip is the identity). -/
theorem sum_magnitudes_spec (disk bulge agn : PyFloat) :
    (sum_magnitudes disk bulge agn = none ↔
      (isMissingMag disk = true ∧ isMissingMag bulge = true ∧ isMissingMag agn = true)) ∧
    (¬(isMissingMag disk = true ∧ isMissingMag bulge = true ∧ isMissingMag agn = true) →
      sum_magnitudes disk bulge agn =
        some (-2.5 * Real.logb 10
          (magContribution disk + magContribution bulge + magContribution agn) + 22)) ∧
    (∀ m : ℝ, disk = PyFloat.val m → isMissingMag bulge = true → isMissingMag agn = true →
      sum_magnitudes disk bulge agn = some m) ∧
    (∀ m : ℝ, bulge = PyFloat.val m → isMissingMag disk = true → isMissingMag agn = true →
      sum_magnitudes disk bulge agn = some m) ∧
    (∀ m : ℝ, agn = PyFloat.val m → isMissingMag disk = true → isMissingMag bulge = true →
      sum_magnitudes disk bulge agn = some m) := by
  refine ⟨?_, ?_, ?_, ?_, ?_⟩
  · simp only [sum_magnitudes]
    split_ifs with hp
    · exact iff_of_false (by simp) ((sumContribution_pos_iff disk bulge agn).mp hp)
    · refine iff_of_true rfl ?_
      by_contra hall
      exact hp ((sumContribution_pos_iff disk bulge agn).mpr hall)
  · intro h
    simp only [sum_magnitudes]
    rw [if_pos ((sumContribution_pos_iff disk bulge agn).mpr h)]
  · intro m hd hb ha
    subst hd
    simp only [sum_magnitudes, magContribution_val,
      (magContribution_eq_zero_iff bulge).mpr hb, (magContribution_eq_zero_iff agn).mpr ha,
      add_zero]
    rw [if_pos (fluxFromMag_pos m)]
    rw [neg_two_five_logb_flux m]
  · intro m hb hd ha
    subst hb
    simp only [sum_magnitudes, magContribution_val,
      (magContribution_eq_zero_iff disk).mpr hd, (magContribution_eq_zero_iff agn).mpr ha,
      add_zero, zero_add]
    rw [if_pos (fluxFromMag_pos m)]
    rw [neg_two_five_logb_flux m]
  · intro m ha hd hb
    subst ha
    simp only [sum_magnitudes, magContribution_val,
      (magContribution_eq_zero_iff disk).mpr hd, (magContribution_eq_zero_iff bulge).mpr hb,
      add_zero, zero_add]
    rw [if_pos (fluxFromMag_pos m)]
    rw [neg_two_five_logb_flux m]

/-- Witness for C10: a single present magnitude of 5 comes back unchanged. -/
theorem sum_magnitudes_spec_witness :
    sum_magnitudes (PyFloat.val 5) PyFloat.none PyFloat.nan = some 5 :=
  (sum_magnitudes_spec (PyFloat.val 5) PyFloat.none PyFloat.nan).2.2.1 5 rfl rfl rfl

end PhotUtils
